import Mathlib

/-!
Verification of the XAU/USD market-analysis core against its specification.

This file gives a shallow embedding, in Lean 4, of the decision pipeline and
its structural detectors:

* `SmcDetector` functions (`detectOrderBlocks`, `detectFvg`,
  `calculatePremiumDiscount`, `detectMarketStructureShift`, `analyzeAll`)
  embed `src/smc_detector.py`;
* `getMinutesToImpact` embeds `get_seconds_to_impact` of `src/news_loader.py`
  (a calendar row is modelled by its title together with its signed distance
  in minutes from "now", which is what the pandas code computes before taking
  the absolute value; the USD/high-impact filtering of `process_ff_data` is
  modelled by the list only containing such rows);
* `canTrade` / `validateSetup` embed `src/risk_manager.py` (the JSON
  configuration is passed explicitly as `Rules` / `Filters` records, and the
  mutable runtime counters of the `RiskManager` object as an `RMState`
  record threaded in and out);
* `fallbackProbability` embeds `_fallback_probability` of
  `src/ml_classifier.py`;
* `analyzeShortSetup`, `analyzeLongSetup`, `finalizeSetup`, `afterNewsGate`
  and `analyzeMarket` embed `src/analysis_engine.py`.  The polymorphic
  probability scorer (`predict_success_probability`) is a parameter
  `scorer : SetupData → SmcData → ℚ` of the pipeline, matching the spec's
  pluggable-scorer interface.

Prices and indicator values are rationals.  Python float formatting in
reason strings is presentational, so reasons are modelled by a structured
inductive type `Reason` carrying the same payloads that the f-strings
interpolate.  Pandas `iloc` slicing, rolling means over fewer rows than the
window (which yield `NaN`, and `NaN` comparisons are `False`), and empty-max
(`NaN`) are modelled explicitly with `Option` / clamped `List.drop`.
-/

/- Batteries marks rational arithmetic `@[irreducible]`, which blocks
kernel evaluation of the concrete witness inputs; restore the default
reducibility of those definitions (this changes nothing semantically). -/
set_option allowUnsafeReducibility true in
attribute [semireducible] Rat.add Rat.sub Rat.mul Rat.inv Rat.ofScientific

/-- One OHLCV candle with its precomputed indicator columns.  `op` is the
`Open` column (`open` is a Lean keyword). -/
structure Bar where
  op : ℚ
  high : ℚ
  low : ℚ
  close : ℚ
  volume : ℚ
  rsi : ℚ
  atr : ℚ
  vwap : ℚ
deriving DecidableEq, Repr

/-- The `'type'` tag of an order block (`'Bearish OB'` / `'Bullish OB'`). -/
inductive ObKind | bearish | bullish
deriving DecidableEq, Repr

/-- One detected order block, as built in `detect_order_blocks`. -/
structure OrderBlock where
  kind : ObKind
  anchorIndex : ℕ
  top : ℚ
  bottom : ℚ
  strength : ℚ
deriving DecidableEq, Repr

/-- The `'type'` tag of a fair value gap. -/
inductive FvgKind | bearish | bullish
deriving DecidableEq, Repr

/-- One detected fair value gap, as built in `detect_fvg`. -/
structure Fvg where
  kind : FvgKind
  index : ℕ
  top : ℚ
  bottom : ℚ
  size : ℚ
deriving DecidableEq, Repr

/-- The zone labels produced by `calculate_premium_discount` (only these four
strings are ever returned by the source). -/
inductive Zone | premium | premiumWeak | equilibrium | discount
deriving DecidableEq, Repr

/-- Result record of `calculate_premium_discount`.  The `strength` label and
the Fibonacci `levels` table of the Python dict are determined pointwise by
`zone` / by `high`,`low` and carry no extra information used anywhere in the
pipeline, so they are not separately modelled. -/
structure PremiumDiscount where
  currentPrice : ℚ
  position : ℚ
  zone : Zone
deriving DecidableEq, Repr

/-- `'Bearish MSS'` / `'Bullish MSS'`. -/
inductive MssType | bearishMss | bullishMss
deriving DecidableEq, Repr

/-- Result record of `detect_market_structure_shift` (the constant
`'strength'` / `'implication'` strings are determined by `type`). -/
structure Mss where
  type : MssType
  brokenLevel : ℚ
deriving DecidableEq, Repr

/-- The dictionary returned by `SMC_Detector.analyze_all`. -/
structure SmcData where
  orderBlocksBearish : List OrderBlock
  orderBlocksBullish : List OrderBlock
  fairValueGaps : List Fvg
  premiumDiscount : PremiumDiscount
  marketStructureShift : Option Mss
deriving DecidableEq, Repr

namespace ListQ

/-- `foldl max` seeded with `x`: the value of pandas `.max()` on the
nonempty series `x :: xs`. -/
def foldMax (x : ℚ) (xs : List ℚ) : ℚ := xs.foldl max x

/-- `foldl min` seeded with `x`: the value of pandas `.min()` on the
nonempty series `x :: xs`. -/
def foldMin (x : ℚ) (xs : List ℚ) : ℚ := xs.foldl min x

/-- pandas `.max()`: `none` on an empty series (`NaN`), otherwise the max. -/
def max? : List ℚ → Option ℚ
  | [] => none
  | x :: xs => some (foldMax x xs)

/-- pandas `.min()`: `none` on an empty series (`NaN`), otherwise the min. -/
def min? : List ℚ → Option ℚ
  | [] => none
  | x :: xs => some (foldMin x xs)

theorem le_foldMax_init (x : ℚ) (xs : List ℚ) : x ≤ foldMax x xs := by
  induction xs generalizing x with
  | nil => exact le_refl x
  | cons y ys ih => exact le_trans (le_max_left x y) (ih (max x y))

theorem le_foldMax_of_mem {a : ℚ} {xs : List ℚ} (x : ℚ) (h : a ∈ xs) :
    a ≤ foldMax x xs := by
  induction xs generalizing x with
  | nil => cases h
  | cons y ys ih =>
    rcases List.mem_cons.mp h with rfl | h'
    · exact le_trans (le_max_right x a) (le_foldMax_init (max x a) ys)
    · exact ih (max x y) h'

theorem foldMin_le_init (x : ℚ) (xs : List ℚ) : foldMin x xs ≤ x := by
  induction xs generalizing x with
  | nil => exact le_refl x
  | cons y ys ih => exact le_trans (ih (min x y)) (min_le_left x y)

theorem foldMin_le_of_mem {a : ℚ} {xs : List ℚ} (x : ℚ) (h : a ∈ xs) :
    foldMin x xs ≤ a := by
  induction xs generalizing x with
  | nil => cases h
  | cons y ys ih =>
    rcases List.mem_cons.mp h with rfl | h'
    · exact le_trans (foldMin_le_init (min x a) ys) (min_le_right x a)
    · exact ih (min x y) h'

end ListQ

/-- Python `l[-n:]`: the last `n` elements (all of them when fewer). -/
def takeLast {α : Type} (n : ℕ) (l : List α) : List α := l.drop (l.length - n)

theorem takeLast_length_le {α : Type} (n : ℕ) (l : List α) :
    (takeLast n l).length ≤ n := by
  simp only [takeLast, List.length_drop]
  omega

theorem takeLast_eq_self {α : Type} {n : ℕ} {l : List α} (h : l.length ≤ n) :
    takeLast n l = l := by
  simp only [takeLast, Nat.sub_eq_zero_of_le h, List.drop_zero]

/-- The swing lookback used throughout `SMC_Detector` (`self.swing_lookback`). -/
def swingLookback : ℕ := 5

/-- The body of the scan loop of `detect_order_blocks` at index `i`:
the candle pair `(df.iloc[i], df.iloc[i+1])` and the polarity conditions. -/
def obAt (df : List Bar) (dir : ObKind) (i : ℕ) : Option OrderBlock :=
  match df[i]?, df[i + 1]? with
  | some current, some nextCandle =>
    match dir with
    | .bearish =>
      if current.close > current.op ∧
          nextCandle.close < current.low ∧ nextCandle.close < nextCandle.op then
        some ⟨.bearish, i, current.high, current.low,
          |nextCandle.close - current.low|⟩
      else none
    | .bullish =>
      if current.close < current.op ∧
          nextCandle.close > current.high ∧ nextCandle.close > nextCandle.op then
        some ⟨.bullish, i, current.high, current.low,
          |nextCandle.close - current.high|⟩
      else none
  | _, _ => none

/-- The raw scan of `detect_order_blocks`:
`for i in range(self.swing_lookback, len(self.df) - 1)`. -/
def obScan (df : List Bar) (dir : ObKind) : List OrderBlock :=
  (List.range' swingLookback (df.length - 1 - swingLookback)).filterMap (obAt df dir)

/-- One insertion step of a stable descending-by-strength sort: `x` is placed
before the first element whose strength does not exceed `x`'s.  Elements of
the sorted tail that `x` passes over are strictly stronger, so equal-strength
elements keep their original relative order — exactly the guarantee of
Python's stable `sorted(..., key=strength, reverse=True)`. -/
def insertOB (x : OrderBlock) : List OrderBlock → List OrderBlock
  | [] => [x]
  | y :: ys => if x.strength < y.strength then y :: insertOB x ys else x :: y :: ys

/-- Stable descending-by-strength sort (models
`sorted(order_blocks, key=lambda x: x['strength'], reverse=True)`). -/
def sortOBDesc : List OrderBlock → List OrderBlock
  | [] => []
  | x :: xs => insertOB x (sortOBDesc xs)

/-- `SMC_Detector.detect_order_blocks`: scan, sort descending by strength
(stably), keep the top 3; empty list when nothing matched. -/
def detectOrderBlocks (df : List Bar) (dir : ObKind) : List OrderBlock :=
  let orderBlocks := obScan df dir
  match orderBlocks with
  | [] => []
  | l => (sortOBDesc l).take 3

/-- The body of the scan loop of `detect_fvg` at index `i`: the bearish gap
condition is tested first, the bullish one only in the `elif`. -/
def fvgAt (df : List Bar) (i : ℕ) : Option Fvg :=
  match df[i - 2]?, df[i]? with
  | some candleBefore, some candleCurrent =>
    if candleBefore.low > candleCurrent.high then
      some ⟨.bearish, i, candleBefore.low, candleCurrent.high,
        candleBefore.low - candleCurrent.high⟩
    else if candleBefore.high < candleCurrent.low then
      some ⟨.bullish, i, candleCurrent.low, candleBefore.high,
        candleCurrent.low - candleBefore.high⟩
    else none
  | _, _ => none

/-- The raw scan of `detect_fvg`: `for i in range(2, len(self.df))`. -/
def fvgScan (df : List Bar) : List Fvg :=
  (List.range' 2 (df.length - 2)).filterMap (fvgAt df)

/-- `SMC_Detector.detect_fvg`: `return fvgs[-5:] if fvgs else []`. -/
def detectFvg (df : List Bar) : List Fvg :=
  let fvgs := fvgScan df
  match fvgs with
  | [] => []
  | l => takeLast 5 l

/-- `self.df['Close'].iloc[-1]` (a default that is never hit on the nonempty
series the claims quantify over). -/
def currentClose (df : List Bar) : ℚ := ((df.getLast?).map (·.close)).getD 0

/-- `SMC_Detector.calculate_premium_discount`, over `self.df.tail(50)`. -/
def calculatePremiumDiscount (df : List Bar) : PremiumDiscount :=
  let recentData := takeLast 50 df
  let high := (ListQ.max? (recentData.map (·.high))).getD 0
  let low := (ListQ.min? (recentData.map (·.low))).getD 0
  let currentPrice := currentClose df
  let rangeSize := high - low
  let position := if rangeSize > 0 then (currentPrice - low) / rangeSize else 1/2
  let zone : Zone :=
    if position > 618/1000 then .premium
    else if position > 1/2 then .premiumWeak
    else if position > 382/1000 then .equilibrium
    else .discount
  ⟨currentPrice, position, zone⟩

/-- A swing point as recorded by `detect_market_structure_shift`. -/
structure SwingPt where
  index : ℕ
  price : ℚ
deriving DecidableEq, Repr

/-- Whether bar `i` is a swing high: its high equals the max of
`df.iloc[i-L : i+L+1]` highs (`L = swing_lookback`). -/
def swingHighAt (df : List Bar) (i : ℕ) : Option SwingPt :=
  match df[i]? with
  | some current =>
    let window := (df.drop (i - swingLookback)).take (2 * swingLookback + 1)
    if ListQ.max? (window.map (·.high)) = some current.high then
      some ⟨i, current.high⟩
    else none
  | none => none

/-- Whether bar `i` is a swing low, symmetrically. -/
def swingLowAt (df : List Bar) (i : ℕ) : Option SwingPt :=
  match df[i]? with
  | some current =>
    let window := (df.drop (i - swingLookback)).take (2 * swingLookback + 1)
    if ListQ.min? (window.map (·.low)) = some current.low then
      some ⟨i, current.low⟩
    else none
  | none => none

/-- The interior-index scan range of `detect_market_structure_shift`:
`range(self.swing_lookback, len(self.df) - self.swing_lookback)`. -/
def swingRange (df : List Bar) : List ℕ :=
  List.range' swingLookback (df.length - swingLookback - swingLookback)

/-- All swing highs, in index order. -/
def swingHighs (df : List Bar) : List SwingPt :=
  (swingRange df).filterMap (swingHighAt df)

/-- All swing lows, in index order. -/
def swingLows (df : List Bar) : List SwingPt :=
  (swingRange df).filterMap (swingLowAt df)

/-- Python `l[-2:]` when it has two elements: the last two, in order. -/
def lastTwo {α : Type} (l : List α) : Option (α × α) :=
  match l.reverse with
  | b :: a :: _ => some (a, b)
  | _ => none

/-- The bearish half of `detect_market_structure_shift`: among the two most
recent swing lows, a higher low whose level the current close has broken
below; returns the broken level when it fires. -/
def bearishMssCheck (df : List Bar) : Option ℚ :=
  match lastTwo (swingLows df) with
  | some (l0, l1) =>
    if l1.price > l0.price ∧ currentClose df < l1.price then some l1.price
    else none
  | none => none

/-- The bullish half: a lower high among the two most recent swing highs,
broken above by the current close. -/
def bullishMssCheck (df : List Bar) : Option ℚ :=
  match lastTwo (swingHighs df) with
  | some (h0, h1) =>
    if h1.price < h0.price ∧ currentClose df > h1.price then some h1.price
    else none
  | none => none

/-- `SMC_Detector.detect_market_structure_shift`: the bearish branch returns
first; the bullish branch is only reached when it did not fire; `none` is the
fall-through result. -/
def detectMarketStructureShift (df : List Bar) : Option Mss :=
  match bearishMssCheck df with
  | some level => some ⟨.bearishMss, level⟩
  | none =>
    match bullishMssCheck df with
    | some level => some ⟨.bullishMss, level⟩
    | none => none

/-- `SMC_Detector.analyze_all`. -/
def analyzeAll (df : List Bar) : SmcData :=
  ⟨detectOrderBlocks df .bearish, detectOrderBlocks df .bullish,
    detectFvg df, calculatePremiumDiscount df, detectMarketStructureShift df⟩

/-- Python truthiness of `smc_data['market_structure_shift'] and
smc_data['market_structure_shift']['type'] == t`. -/
def hasMssType (m : Option Mss) (t : MssType) : Bool :=
  match m with
  | some mss => mss.type = t
  | none => false

/-- One row of the processed economic calendar: its `title` and its signed
distance in minutes from "now" (`diff_minutes` in `get_seconds_to_impact`).
By construction of `process_ff_data` the rows are already the high-impact
USD events. -/
structure NewsEvent where
  title : String
  diffMinutes : ℚ
deriving DecidableEq, Repr

/-- `get_seconds_to_impact`: `(9999, "None")` on an empty calendar, else the
absolute minute distance and title of the row minimising `abs(diff_minutes)`
(`idxmin` keeps the first row on ties, so the fold only replaces the current
best on a strictly smaller distance). -/
def getMinutesToImpact : List NewsEvent → ℚ × String
  | [] => (9999, "None")
  | e :: es =>
    let closest := es.foldl
      (fun best x => if |x.diffMinutes| < |best.diffMinutes| then x else best) e
    (|closest.diffMinutes|, closest.title)

/-- The `risk_rules_locked` section of `prop_firm_config.json`. -/
structure Rules where
  maxTradesPerDay : ℕ
  consecutiveLossStopCount : ℕ
  maxDailyDrawdownPercent : ℚ
  minRiskRewardRatio : ℚ
deriving DecidableEq, Repr

/-- The `filters` section of `prop_firm_config.json`. -/
structure Filters where
  maxSpreadPips : ℚ
  minProbabilityThreshold : ℚ
deriving DecidableEq, Repr

/-- The mutable runtime counters of a `RiskManager` object
(`daily_trades`, `consecutive_losses`, `current_daily_drawdown`). -/
structure RMState where
  dailyTrades : ℕ
  consecutiveLosses : ℕ
  currentDailyDrawdown : ℚ
deriving DecidableEq, Repr

/-- The reason strings `can_trade` can return. -/
inductive CanTradeReason
  | ok
  | maxDailyTrades
  | consecutiveLosses
  | maxDailyDrawdown
deriving DecidableEq, Repr

/-- `RiskManager.can_trade`.  The Python method reads and, when
`last_outcome_was_loss` is set, writes `self.consecutive_losses`; the
embedding threads that object state explicitly, returning the state the
object holds after the call alongside `(allowed, reason)`. -/
def canTrade (rules : Rules) (lastOutcomeWasLoss : Bool) (s : RMState) :
    (Bool × CanTradeReason) × RMState :=
  let s' := if lastOutcomeWasLoss then
      { s with consecutiveLosses := s.consecutiveLosses + 1 }
    else s
  if s'.dailyTrades ≥ rules.maxTradesPerDay then
    ((false, .maxDailyTrades), s')
  else if s'.consecutiveLosses ≥ rules.consecutiveLossStopCount then
    ((false, .consecutiveLosses), s')
  else if s'.currentDailyDrawdown ≥ rules.maxDailyDrawdownPercent then
    ((false, .maxDailyDrawdown), s')
  else ((true, .ok), s')

/-- The reason payloads of `validate_setup`'s f-strings. -/
inductive RiskReason
  | valid
  | rrTooLow (rr minRr : ℚ)
  | spreadTooHigh (spread maxSpread : ℚ)
  | probTooLow (prob minProb : ℚ)
deriving DecidableEq, Repr

/-- `RiskManager.validate_setup`: three threshold checks in fixed order.
It reads only its arguments and the loaded configuration; it touches no
runtime counter, which its purely functional type records. -/
def validateSetup (rules : Rules) (filters : Filters)
    (rrRatio spread probScore : ℚ) : Bool × RiskReason :=
  if rrRatio < rules.minRiskRewardRatio then
    (false, .rrTooLow rrRatio rules.minRiskRewardRatio)
  else if spread > filters.maxSpreadPips then
    (false, .spreadTooHigh spread filters.maxSpreadPips)
  else if probScore < filters.minProbabilityThreshold then
    (false, .probTooLow probScore filters.minProbabilityThreshold)
  else (true, .valid)

/-- The `htf_trend` labels of the pipeline. -/
inductive Trend | bearish | bullish | ranging
deriving DecidableEq, Repr

/-- The `setup_data` dictionary assembled by `_finalize_setup`. -/
structure SetupData where
  session : String
  htfTrend : Trend
  htfStructure : String
  keyResistanceLevel : ℚ
  liquidityEventType : Option String
  hasLargeWick : Bool
  consecutiveBullishCandles : ℕ
  atrValue : ℚ
  rsiDivergence : Bool
  vwapDistance : ℚ
  volumeSpike : Bool
  spreadValue : ℚ
  newsEventProximityMinutes : ℚ
  premiumPosition : ℚ
  inPremiumZone : ℕ
  bearishObCount : ℕ
  bullishObCount : ℕ
  fvgCount : ℕ
  hasBearishMss : ℕ
  hasBullishMss : ℕ
deriving DecidableEq, Repr

/-- `_fallback_probability` of `SetupSuccessClassifier`: the rule-based
additive score.  Each condition is exactly the Python one: `htf_trend ==
'Bearish'`, truthiness of `liquidity_event_type`, the two boolean flags,
`position > 0.7`, a nonempty *bearish* order-block list, and a *Bearish*
MSS — the conditions do not consult any trade direction. -/
def fallbackProbability (marketData : SetupData) (smcData : SmcData) : ℚ :=
  let prob : ℚ := 0
  let prob := if marketData.htfTrend = .bearish then prob + 30 else prob
  let prob := if marketData.liquidityEventType.isSome then prob + 25 else prob
  let prob := if marketData.rsiDivergence then prob + 10 else prob
  let prob := if marketData.hasLargeWick then prob + 10 else prob
  let prob := if smcData.premiumDiscount.position > 7/10 then prob + 15 else prob
  let prob := if smcData.orderBlocksBearish.length > 0 then prob + 10 else prob
  let prob := if hasMssType smcData.marketStructureShift .bearishMss then
      prob + 10 else prob
  min prob 100

/-- The direction parameter of the pipeline (`target_direction`). -/
inductive Direction | dirShort | dirLong | dirBoth
deriving DecidableEq, Repr

/-- Modelled from the spec (§4.7): the *direction-relative* rule-based
scorer the specification describes — trend aligned with the trade direction
+30, liquidity event +25, divergence +10, large wick +10, zone position
beyond 0.7 in the trade direction +15, at least one order block of matching
polarity +10, an MSS matching the trade direction +10, capped at 100.  It
exists only to be compared with the implemented `fallbackProbability`. -/
def fallbackProbabilitySpec (direction : Direction) (marketData : SetupData)
    (smcData : SmcData) : ℚ :=
  let alignedTrend : Trend := if direction = .dirShort then .bearish else .bullish
  let matchingMss : MssType :=
    if direction = .dirShort then .bearishMss else .bullishMss
  let matchingObs := if direction = .dirShort then smcData.orderBlocksBearish
    else smcData.orderBlocksBullish
  let zoneBeyond : Prop := if direction = .dirShort then
      smcData.premiumDiscount.position > 7/10
    else smcData.premiumDiscount.position < 3/10
  let prob : ℚ := 0
  let prob := if marketData.htfTrend = alignedTrend then prob + 30 else prob
  let prob := if marketData.liquidityEventType.isSome then prob + 25 else prob
  let prob := if marketData.rsiDivergence then prob + 10 else prob
  let prob := if marketData.hasLargeWick then prob + 10 else prob
  let prob := if zoneBeyond then prob + 15 else prob
  let prob := if matchingObs.length > 0 then prob + 10 else prob
  let prob := if hasMssType smcData.marketStructureShift matchingMss then
      prob + 10 else prob
  min prob 100

/-- The two verdict strings. -/
inductive Verdict | noTrade | validSetup
deriving DecidableEq, Repr

/-- Structured rendering of the pipeline's `reason` strings (the payloads
are the values the f-strings interpolate). -/
inductive Reason
  | highImpactNews (event : String) (minutes : ℚ)
  | strongBullishMomentum
  | strongBearishMomentum
  | notInPremiumZone (current : Zone)
  | notInDiscountZone (current : Zone)
  | bullishMssDetected
  | bearishMssDetected
  | noLiquiditySweepHighs
  | noLiquiditySweepLows
  | noConfirmation
  | riskReject (r : RiskReason)
  | noValidSetupFound
  | allChecksPassed
deriving DecidableEq, Repr

/-- The shapes the `"data"` entry of a pipeline result can take. -/
inductive DataField
  | empty
  | newsProx (minutes : ℚ)
  | instrumentOnly (instrument : String)
  | snapshot (d : SetupData)
deriving DecidableEq, Repr

/-- The `trade_plan` dictionary. -/
structure TradePlan where
  direction : Direction
  entryZoneStart : ℚ
  entryZoneEnd : ℚ
  stopLoss : ℚ
  tp1 : ℚ
  tp2 : ℚ
  estimatedRr : ℚ
  probabilityScore : ℚ
deriving DecidableEq, Repr

/-- A pipeline result dictionary: verdict, reason, data, and the optional
`"plan"` / `"smc"` keys (absent keys are `none`). -/
structure AnalysisResult where
  verdict : Verdict
  reason : Reason
  data : DataField
  plan : Option TradePlan
  smc : Option SmcData
deriving DecidableEq, Repr

/-- The pluggable probability scorer of the pipeline
(`predict_success_probability`): any function from the assembled features to
a score.  `fallbackProbability` is the implementation used when the learned
model is unavailable. -/
def Scorer : Type := SetupData → SmcData → ℚ

/-- `MarketAnalyst._finalize_setup`: assemble `setup_data` (note the
hardcoded `spread_value = 0.0` and `news_event_proximity_minutes = 999`),
score it, validate with `spread=0.1`, and emit either the risk rejection
(with the snapshot) or the `VALID SETUP` result. -/
def finalizeSetup (scorer : Scorer) (rules : Rules) (filters : Filters)
    (entry sl tp1 rr : ℚ) (direction : Direction) (trend : Trend)
    (liqEvent : Option String) (exhaust rsiDiv : Bool) (candle : Bar)
    (smcData : SmcData) : AnalysisResult :=
  let setupData : SetupData :=
    { session := "Unknown"
      htfTrend := trend
      htfStructure := if direction = .dirShort then "LH" else "HL"
      keyResistanceLevel := 0
      liquidityEventType := liqEvent
      hasLargeWick := exhaust
      consecutiveBullishCandles := 0
      atrValue := candle.atr
      rsiDivergence := rsiDiv
      vwapDistance := |candle.close - candle.vwap|
      volumeSpike := false
      spreadValue := 0
      newsEventProximityMinutes := 999
      premiumPosition := smcData.premiumDiscount.position
      inPremiumZone := if smcData.premiumDiscount.zone = .premium ∨
          smcData.premiumDiscount.zone = .premiumWeak then 1 else 0
      bearishObCount := smcData.orderBlocksBearish.length
      bullishObCount := smcData.orderBlocksBullish.length
      fvgCount := smcData.fairValueGaps.length
      hasBearishMss := if hasMssType smcData.marketStructureShift .bearishMss
          then 1 else 0
      hasBullishMss := if hasMssType smcData.marketStructureShift .bullishMss
          then 1 else 0 }
  let mlProb := scorer setupData smcData
  let validation := validateSetup rules filters rr (1/10) mlProb
  if validation.1 = false then
    ⟨.noTrade, .riskReject validation.2, .snapshot setupData, none, none⟩
  else
    let tradePlan : TradePlan :=
      { direction := direction
        entryZoneStart := entry
        entryZoneEnd := if direction = .dirShort then entry + 1 else entry - 1
        stopLoss := sl
        tp1 := tp1
        tp2 := 0
        estimatedRr := rr
        probabilityScore := mlProb }
    ⟨.validSetup, .allChecksPassed, .snapshot setupData, some tradePlan, some smcData⟩

/-- `df['High'].iloc[-lookback:-1].max()` with `lookback = 10`: pandas
clamps the negative slice, and `.max()` of an empty slice is `NaN`
(with which every `>` comparison is `False`), modelled by `none`. -/
def recentHighBeforeLast (df : List Bar) : Option ℚ :=
  ListQ.max? (((df.drop (df.length - 10)).dropLast).map (·.high))

/-- `df['Low'].iloc[-lookback:-1].min()`, symmetrically. -/
def recentLowBeforeLast (df : List Bar) : Option ℚ :=
  ListQ.min? (((df.drop (df.length - 10)).dropLast).map (·.low))

/-- The `liquidity_event` computation of `_analyze_short_setup`: a sweep of
the local highs. -/
def shortLiquidityEvent (df : List Bar) (currentCandle : Bar) : Option String :=
  match recentHighBeforeLast df with
  | some recentHigh =>
    if currentCandle.high > recentHigh then some "Local High Sweep" else none
  | none => none

/-- The `liquidity_event` computation of `_analyze_long_setup`: a sweep of
the local lows. -/
def longLiquidityEvent (df : List Bar) (currentCandle : Bar) : Option String :=
  match recentLowBeforeLast df with
  | some recentLow =>
    if currentCandle.low < recentLow then some "Local Low Sweep" else none
  | none => none

/-- `MarketAnalyst._analyze_short_setup`. -/
def analyzeShortSetup (scorer : Scorer) (rules : Rules) (filters : Filters)
    (df : List Bar) (smcData : SmcData) (trend : Trend)
    (currentCandle prevCandle : Bar) : AnalysisResult :=
  let pdZone := smcData.premiumDiscount
  if ¬ (pdZone.zone = .premium ∨ pdZone.zone = .premiumWeak ∨
      pdZone.zone = .equilibrium) then
    ⟨.noTrade, .notInPremiumZone pdZone.zone, .empty, none, some smcData⟩
  else if hasMssType smcData.marketStructureShift .bullishMss then
    ⟨.noTrade, .bullishMssDetected, .empty, none, some smcData⟩
  else
    let liquidityEvent := shortLiquidityEvent df currentCandle
    let bodySize := |currentCandle.close - currentCandle.op|
    let upperWick := currentCandle.high - max currentCandle.close currentCandle.op
    let isExhaustion := upperWick ≥ bodySize * 1
    if liquidityEvent.isNone then
      ⟨.noTrade, .noLiquiditySweepHighs, .empty, none, none⟩
    else
      let rsiDiv := currentCandle.high > prevCandle.high ∧
        currentCandle.rsi < prevCandle.rsi
      if ¬ rsiDiv ∧ ¬ isExhaustion then
        ⟨.noTrade, .noConfirmation, .empty, none, none⟩
      else
        let entryPrice := currentCandle.close
        let stopLoss := currentCandle.high +
          (currentCandle.high - currentCandle.low) * (1/10)
        let risk := stopLoss - entryPrice
        let tp1 := entryPrice - risk * 2
        let rrRatio := if risk > 0 then (entryPrice - tp1) / risk else 0
        finalizeSetup scorer rules filters entryPrice stopLoss tp1 rrRatio
          .dirShort trend liquidityEvent isExhaustion
          (decide rsiDiv) currentCandle smcData

/-- `MarketAnalyst._analyze_long_setup`.  Note the valid-zone list of the
source contains the string `'Discount (Weak)'`, which
`calculate_premium_discount` never produces, so over the calculator's actual
range the membership test is `zone ∈ {Discount, Equilibrium}`. -/
def analyzeLongSetup (scorer : Scorer) (rules : Rules) (filters : Filters)
    (df : List Bar) (smcData : SmcData) (trend : Trend)
    (currentCandle prevCandle : Bar) : AnalysisResult :=
  let pdZone := smcData.premiumDiscount
  if ¬ (pdZone.zone = .discount ∨ pdZone.zone = .equilibrium) then
    ⟨.noTrade, .notInDiscountZone pdZone.zone, .empty, none, some smcData⟩
  else if hasMssType smcData.marketStructureShift .bearishMss then
    ⟨.noTrade, .bearishMssDetected, .empty, none, some smcData⟩
  else
    let liquidityEvent := longLiquidityEvent df currentCandle
    let bodySize := |currentCandle.close - currentCandle.op|
    let lowerWick := min currentCandle.close currentCandle.op - currentCandle.low
    let isExhaustion := lowerWick ≥ bodySize * 1
    if liquidityEvent.isNone then
      ⟨.noTrade, .noLiquiditySweepLows, .empty, none, none⟩
    else
      let rsiDiv := currentCandle.low < prevCandle.low ∧
        currentCandle.rsi > prevCandle.rsi
      if ¬ rsiDiv ∧ ¬ isExhaustion then
        ⟨.noTrade, .noConfirmation, .empty, none, none⟩
      else
        let entryPrice := currentCandle.close
        let stopLoss := currentCandle.low -
          (currentCandle.high - currentCandle.low) * (1/10)
        let risk := entryPrice - stopLoss
        let tp1 := entryPrice + risk * 2
        let rrRatio := if risk > 0 then (tp1 - entryPrice) / risk else 0
        finalizeSetup scorer rules filters entryPrice stopLoss tp1 rrRatio
          .dirLong trend liquidityEvent isExhaustion
          (decide rsiDiv) currentCandle smcData

/-- `df.iloc[-1]` (default never hit on the series the claims use). -/
def currentCandleOf (df : List Bar) : Bar :=
  (df.getLast?).getD ⟨0, 0, 0, 0, 0, 0, 0, 0⟩

/-- `df.iloc[-2]`. -/
def prevCandleOf (df : List Bar) : Bar :=
  ((df.dropLast).getLast?).getD ⟨0, 0, 0, 0, 0, 0, 0, 0⟩

/-- `df['Close'].rolling(window=50).mean().iloc[-1]`: `none` (`NaN`) when
fewer than 50 bars exist, else the mean of the last 50 closes. -/
def sma50 (df : List Bar) : Option ℚ :=
  if df.length < 50 then none
  else some (((takeLast 50 df).map (·.close)).sum / 50)

/-- The trend classification of `analyze_market`.  With fewer than 50 bars
the rolling mean is `NaN` and both float comparisons are `False`, so the
`else` branch labels the trend `Ranging`. -/
def htfTrend (df : List Bar) : Trend :=
  match sma50 df with
  | none => .ranging
  | some sma =>
    if (currentCandleOf df).close < sma then .bearish
    else if (currentCandleOf df).close > sma then .bullish
    else .ranging

/-- Everything `analyze_market` does after the news gate: trend
classification, the SHORT and/or LONG branch in order, and the fall-through
rejection. -/
def afterNewsGate (scorer : Scorer) (rules : Rules) (filters : Filters)
    (targetDirection : Direction) (instrumentName : String)
    (df : List Bar) (smcData : SmcData) : AnalysisResult :=
  let currentCandle := currentCandleOf df
  let prevCandle := prevCandleOf df
  let trend := htfTrend df
  let fallThrough : AnalysisResult :=
    ⟨.noTrade, .noValidSetupFound, .instrumentOnly instrumentName, none, none⟩
  let longSection : AnalysisResult :=
    if targetDirection = .dirLong ∨ targetDirection = .dirBoth then
      if trend = .bearish ∧ targetDirection = .dirLong then
        ⟨.noTrade, .strongBearishMomentum, .empty, none, none⟩
      else if trend ≠ .bearish then
        let longResult := analyzeLongSetup scorer rules filters df smcData
          trend currentCandle prevCandle
        if longResult.verdict = .validSetup then longResult else fallThrough
      else fallThrough
    else fallThrough
  if targetDirection = .dirShort ∨ targetDirection = .dirBoth then
    if trend = .bullish ∧ targetDirection = .dirShort then
      ⟨.noTrade, .strongBullishMomentum, .empty, none, none⟩
    else if trend ≠ .bullish then
      let shortResult := analyzeShortSetup scorer rules filters df smcData
        trend currentCandle prevCandle
      if shortResult.verdict = .validSetup then shortResult else longSection
    else longSection
  else longSection

/-- `MarketAnalyst.analyze_market`: SMC analysis first, then the global news
gate (inclusive at 15 minutes), then the directional branches. -/
def analyzeMarket (scorer : Scorer) (rules : Rules) (filters : Filters)
    (targetDirection : Direction) (instrumentName : String)
    (df : List Bar) (news : List NewsEvent) : AnalysisResult :=
  let smcData := analyzeAll df
  let minsEvent := getMinutesToImpact news
  if minsEvent.1 ≤ 15 then
    ⟨.noTrade, .highImpactNews minsEvent.2 minsEvent.1,
      .newsProx minsEvent.1, none, none⟩
  else
    afterNewsGate scorer rules filters targetDirection instrumentName df smcData

/-- Shorthand candle constructor for the concrete test series (volume and
indicator columns zero unless a claim exercises them). -/
def mkBar (o h l c : ℚ) : Bar := ⟨o, h, l, c, 0, 0, 0, 0⟩

/-- Ten identical candles: premium zone, no sweep on the last bar. -/
def barsNoSweep : List Bar := List.replicate 10 (mkBar 6 10 0 7)

/-- Nine identical candles and a final bar whose high sweeps the prior highs
and closes with a large upper wick: reaches setup finalization in the SHORT
branch. -/
def barsSweep : List Bar :=
  List.replicate 9 (mkBar 6 10 0 7) ++ [mkBar 8 12 0 7]

/-- A flat window: the 50-bar range is zero. -/
def barsFlat : List Bar := List.replicate 10 (mkBar 5 5 5 5)

/-- A 43-bar series on which the bearish **and** the bullish MSS conditions
hold simultaneously: swing lows at indices 7 (80) and 13 (85) form a higher
low above the final close 60, while swing highs at indices 25 (45) and
31 (44) form a lower high below it. -/
def barsBothMss : List Bar :=
  (List.replicate 7 (mkBar 88 98 88 88)) ++
  [mkBar 80 90 80 80] ++
  (List.replicate 5 (mkBar 88 98 88 88)) ++
  [mkBar 85 95 85 85] ++
  (List.replicate 5 (mkBar 88 98 88 88)) ++
  [mkBar 55 60 55 55, mkBar 42 44 42 42, mkBar 40 43 40 40,
   mkBar 39 42 39 39, mkBar 38 41 38 38, mkBar 37 40 37 37,
   mkBar 36 45 36 36, mkBar 33 37 33 33, mkBar 32 36 32 32,
   mkBar 31 35 31 31, mkBar 30 34 30 30, mkBar 29 33 29 29,
   mkBar 28 44 28 28, mkBar 27 32 27 27, mkBar 26 31 26 26,
   mkBar 25 30 25 25, mkBar 24 29 24 24, mkBar 23 28 23 23,
   mkBar 22 27 22 22, mkBar 21 26 21 21, mkBar 35 50 35 35,
   mkBar 45 55 45 45, mkBar 50 60 50 50, mkBar 48 62 48 60]

/-- Three candles forming one bearish fair value gap
(`bar[0].low = 8 > 5 = bar[2].high`). -/
def barsFvg : List Bar := [mkBar 9 10 8 9, mkBar 9 10 8 9, mkBar 4 5 4 4]

/-- A constant scorer used to instantiate the pluggable-scorer parameter in
concrete runs. -/
def constScorer (q : ℚ) : Scorer := fun _ _ => q

/-- Sample configuration used by the concrete runs. -/
def rulesA : Rules := ⟨5, 3, 4, 2⟩

/-- Filters accepting the hardcoded 0.1 spread. -/
def filtersA : Filters := ⟨5, 70⟩

/-- Filters whose max spread is below the hardcoded 0.1. -/
def filtersB : Filters := ⟨1/20, 70⟩

/-! ### Helper lemmas -/

/-- The output order required of `detect_order_blocks`: strictly stronger
first, and among equal strengths the earlier anchor first. -/
def obOrdered (a b : OrderBlock) : Prop :=
  b.strength < a.strength ∨ (a.strength = b.strength ∧ a.anchorIndex < b.anchorIndex)

theorem mem_insertOB {a x : OrderBlock} :
    ∀ {l : List OrderBlock}, a ∈ insertOB x l ↔ a = x ∨ a ∈ l := by
  intro l
  induction l with
  | nil => simp [insertOB]
  | cons y ys ih =>
    rw [insertOB]
    split
    · rw [List.mem_cons, ih, List.mem_cons]
      tauto
    · rw [List.mem_cons, List.mem_cons]

theorem insertOB_pairwise {x : OrderBlock} {l : List OrderBlock}
    (hl : l.Pairwise obOrdered)
    (hx : ∀ b ∈ l, x.anchorIndex < b.anchorIndex) :
    (insertOB x l).Pairwise obOrdered := by
  induction l with
  | nil => simp [insertOB]
  | cons y ys ih =>
    rw [insertOB]
    rcases List.pairwise_cons.mp hl with ⟨hy, hys⟩
    split
    case isTrue hlt =>
      refine List.pairwise_cons.mpr ⟨?_, ih hys (fun b hb => hx b (List.mem_cons_of_mem y hb))⟩
      intro z hz
      rcases mem_insertOB.mp hz with rfl | hz'
      · exact Or.inl hlt
      · exact hy z hz'
    case isFalse hge =>
      have hyx : y.strength ≤ x.strength := not_lt.mp hge
      refine List.pairwise_cons.mpr ⟨?_, hl⟩
      intro z hz
      rcases List.mem_cons.mp hz with rfl | hz'
      · rcases lt_or_eq_of_le hyx with h | h
        · exact Or.inl h
        · exact Or.inr ⟨h.symm, hx z (List.mem_cons_self _ _)⟩
      · have hzx : z.strength ≤ x.strength := by
          rcases hy z hz' with h | ⟨h, _⟩
          · exact le_trans (le_of_lt h) hyx
          · exact le_trans (le_of_eq h.symm) hyx
        rcases lt_or_eq_of_le hzx with h | h
        · exact Or.inl h
        · exact Or.inr ⟨h.symm, hx z (List.mem_cons_of_mem y hz')⟩

theorem mem_sortOBDesc {a : OrderBlock} :
    ∀ {l : List OrderBlock}, a ∈ sortOBDesc l ↔ a ∈ l := by
  intro l
  induction l with
  | nil => simp [sortOBDesc]
  | cons x xs ih =>
    rw [sortOBDesc, mem_insertOB, ih, List.mem_cons]

theorem sortOBDesc_pairwise {l : List OrderBlock}
    (h : l.Pairwise (fun a b => a.anchorIndex < b.anchorIndex)) :
    (sortOBDesc l).Pairwise obOrdered := by
  induction l with
  | nil => simp [sortOBDesc]
  | cons x xs ih =>
    rcases List.pairwise_cons.mp h with ⟨hx, hxs⟩
    exact insertOB_pairwise (ih hxs) (fun b hb => hx b (mem_sortOBDesc.mp hb))

/-- A `filterMap` over `range'` whose hits carry their scan index is sorted
strictly by that index. -/
theorem pairwise_lt_filterMap_range' {α : Type} (f : ℕ → Option α) (g : α → ℕ)
    (hf : ∀ i a, f i = some a → g a = i) :
    ∀ (n s : ℕ), ((List.range' s n).filterMap f).Pairwise (fun a b => g a < g b) := by
  intro n
  induction n with
  | zero => intro s; simp
  | succ n ih =>
    intro s
    rw [List.range'_succ]
    cases h : f s with
    | none => rw [List.filterMap_cons_none h]; exact ih (s + 1)
    | some a =>
      rw [List.filterMap_cons_some h]
      refine List.pairwise_cons.mpr ⟨?_, ih (s + 1)⟩
      intro b hb
      rcases List.mem_filterMap.mp hb with ⟨j, hj, hfj⟩
      have hsj : s + 1 ≤ j := (List.mem_range'_1.mp hj).1
      rw [hf s a h, hf j b hfj]
      omega

theorem obAt_anchorIndex {df : List Bar} {dir : ObKind} {i : ℕ} {b : OrderBlock}
    (h : obAt df dir i = some b) : b.anchorIndex = i := by
  unfold obAt at h
  split at h
  next =>
    split at h <;> split at h <;>
      first
        | (injection h with h'; subst h'; rfl)
        | exact absurd h (by simp)
  next => exact absurd h (by simp)

theorem obScan_pairwise (df : List Bar) (dir : ObKind) :
    (obScan df dir).Pairwise (fun a b => a.anchorIndex < b.anchorIndex) :=
  pairwise_lt_filterMap_range' (obAt df dir) OrderBlock.anchorIndex
    (fun _ _ h => obAt_anchorIndex h) _ _

theorem fvgAt_index {df : List Bar} {i : ℕ} {f : Fvg}
    (h : fvgAt df i = some f) : f.index = i := by
  unfold fvgAt at h
  split at h
  next =>
    split at h
    · injection h with h'; subst h'; rfl
    · split at h
      · injection h with h'; subst h'; rfl
      · exact absurd h (by simp)
  next => exact absurd h (by simp)

theorem fvgScan_pairwise (df : List Bar) :
    (fvgScan df).Pairwise (fun a b => a.index < b.index) :=
  pairwise_lt_filterMap_range' (fvgAt df) Fvg.index
    (fun _ _ h => fvgAt_index h) _ _

namespace ListQ

theorem le_max?_getD {a : ℚ} {l : List ℚ} (h : a ∈ l) : a ≤ (max? l).getD 0 := by
  cases l with
  | nil => cases h
  | cons x xs =>
    rcases List.mem_cons.mp h with rfl | h'
    · exact le_foldMax_init a xs
    · exact le_foldMax_of_mem x h'

theorem min?_getD_le {a : ℚ} {l : List ℚ} (h : a ∈ l) : (min? l).getD 0 ≤ a := by
  cases l with
  | nil => cases h
  | cons x xs =>
    rcases List.mem_cons.mp h with rfl | h'
    · exact foldMin_le_init a xs
    · exact foldMin_le_of_mem x h'

end ListQ

/-- The last element of a list survives into any `takeLast` of it. -/
theorem getLast_mem_takeLast {α : Type} {l : List α} {a : α} (n : ℕ)
    (hn : 0 < n) (h : l.getLast? = some a) : a ∈ takeLast n l := by
  have hlen : 0 < l.length := by
    cases l with
    | nil => simp at h
    | cons x xs => simp
  have hidx : l[l.length - 1]? = some a := by
    rwa [List.getLast?_eq_getElem?] at h
  have hdrop : (l.drop (l.length - n))[l.length - 1 - (l.length - n)]? = some a := by
    rw [List.getElem?_drop]
    have : l.length - n + (l.length - 1 - (l.length - n)) = l.length - 1 := by omega
    rw [this]
    exact hidx
  exact List.getElem?_mem hdrop

theorem detectOrderBlocks_eq (df : List Bar) (dir : ObKind) :
    detectOrderBlocks df dir = (sortOBDesc (obScan df dir)).take 3 := by
  unfold detectOrderBlocks
  cases h : obScan df dir with
  | nil => simp [sortOBDesc]
  | cons x xs => rfl

theorem detectFvg_eq (df : List Bar) : detectFvg df = takeLast 5 (fvgScan df) := by
  unfold detectFvg
  cases h : fvgScan df with
  | nil => rfl
  | cons x xs => rfl

/-! ### Claim theorems -/

/-- **C3**: for every bar series and either polarity, `detect_order_blocks`
returns at most 3 order blocks, sorted in descending order of strength with
ties broken by scan order (earlier anchor index first, as Python's stable
`sorted` guarantees), and an empty scan yields the empty list rather than an
error. -/
theorem claim_C3 (df : List Bar) (dir : ObKind) :
    (detectOrderBlocks df dir).length ≤ 3 ∧
    (detectOrderBlocks df dir).Pairwise obOrdered ∧
    (obScan df dir = [] → detectOrderBlocks df dir = []) := by
  refine ⟨?_, ?_, ?_⟩
  · rw [detectOrderBlocks_eq]
    simp only [List.length_take]
    omega
  · rw [detectOrderBlocks_eq]
    exact List.Pairwise.sublist (List.take_sublist 3 _)
      (sortOBDesc_pairwise (obScan_pairwise df dir))
  · intro h
    rw [detectOrderBlocks_eq, h]
    rfl

/-- Witness for **C3**: on ten identical candles the bearish scan matches no
pattern and the detector returns the empty list. -/
theorem claim_C3_witness :
    obScan barsNoSweep .bearish = [] ∧ detectOrderBlocks barsNoSweep .bearish = [] :=
  ⟨by decide, (claim_C3 barsNoSweep .bearish).2.2 (by decide)⟩

/-- **C4**: `detect_fvg` returns at most 5 gaps, namely the last 5 of the
scan in scan order (ascending index, most recent last) — all of them when
fewer than 5 exist — and each scan position emits at most one gap (the
return type of `fvgAt` is `Option`), the bearish condition taking priority:
whenever it holds, the bearish gap is emitted regardless of the bullish
condition. -/
theorem claim_C4 (df : List Bar) :
    (detectFvg df).length ≤ 5 ∧
    detectFvg df = takeLast 5 (fvgScan df) ∧
    ((fvgScan df).length ≤ 5 → detectFvg df = fvgScan df) ∧
    (detectFvg df).Pairwise (fun a b => a.index < b.index) ∧
    (∀ i b2 b0, df[i - 2]? = some b2 → df[i]? = some b0 → b2.low > b0.high →
      fvgAt df i = some ⟨.bearish, i, b2.low, b0.high, b2.low - b0.high⟩) := by
  refine ⟨?_, detectFvg_eq df, ?_, ?_, ?_⟩
  · rw [detectFvg_eq]
    exact takeLast_length_le 5 _
  · intro h
    rw [detectFvg_eq, takeLast_eq_self h]
  · rw [detectFvg_eq]
    exact List.Pairwise.sublist (List.drop_sublist _ _) (fvgScan_pairwise df)
  · intro i b2 b0 h2 h0 hgt
    simp only [fvgAt, h2, h0]
    rw [if_pos hgt]

/-- Witness for **C4**: a 3-bar series with one bearish gap — fewer than 5
gaps exist so all are returned, and the bearish branch fires. -/
theorem claim_C4_witness :
    (fvgScan barsFvg).length ≤ 5 ∧
    detectFvg barsFvg = fvgScan barsFvg ∧
    fvgAt barsFvg 2 = some ⟨.bearish, 2, 8, 5, 3⟩ :=
  ⟨by decide, (claim_C4 barsFvg).2.2.1 (by decide),
    ((claim_C4 barsFvg).2.2.2.2 2 (mkBar 9 10 8 9) (mkBar 4 5 4 4)
      (by decide) (by decide) (by decide)).trans (by decide)⟩

/-- **C5**: on a nonempty series of well-formed candles
(`low ≤ close ≤ high` on the last bar), `calculate_premium_discount` returns
position `(close − low) / range` lying in `[0, 1]` when the trailing
`min(50, N)`-bar range is positive, and exactly `1/2` when the range is zero
— the division-by-zero guard of the source. -/
theorem claim_C5 (df : List Bar) (hne : df ≠ [])
    (hwf1 : (currentCandleOf df).low ≤ (currentCandleOf df).close)
    (hwf2 : (currentCandleOf df).close ≤ (currentCandleOf df).high) :
    ((ListQ.max? ((takeLast 50 df).map (·.high))).getD 0 -
        (ListQ.min? ((takeLast 50 df).map (·.low))).getD 0 > 0 →
      (calculatePremiumDiscount df).position =
        (currentClose df - (ListQ.min? ((takeLast 50 df).map (·.low))).getD 0) /
          ((ListQ.max? ((takeLast 50 df).map (·.high))).getD 0 -
            (ListQ.min? ((takeLast 50 df).map (·.low))).getD 0) ∧
      0 ≤ (calculatePremiumDiscount df).position ∧
      (calculatePremiumDiscount df).position ≤ 1) ∧
    ((ListQ.max? ((takeLast 50 df).map (·.high))).getD 0 -
        (ListQ.min? ((takeLast 50 df).map (·.low))).getD 0 = 0 →
      (calculatePremiumDiscount df).position = 1/2) := by
  set hi := (ListQ.max? ((takeLast 50 df).map (·.high))).getD 0 with hhi
  set lo := (ListQ.min? ((takeLast 50 df).map (·.low))).getD 0 with hlo
  obtain ⟨lb, hlast⟩ : ∃ lb, df.getLast? = some lb := by
    cases h : df.getLast? with
    | none => exact absurd (List.getLast?_eq_none_iff.mp h) hne
    | some lb => exact ⟨lb, rfl⟩
  have hcur : currentCandleOf df = lb := by
    unfold currentCandleOf
    rw [hlast]
    rfl
  have hcc : currentClose df = lb.close := by
    unfold currentClose
    rw [hlast]
    rfl
  have hmem : lb ∈ takeLast 50 df := getLast_mem_takeLast 50 (by norm_num) hlast
  have hhigh : lb.high ≤ hi := ListQ.le_max?_getD (List.mem_map_of_mem _ hmem)
  have hlow : lo ≤ lb.low := ListQ.min?_getD_le (List.mem_map_of_mem _ hmem)
  have hc1 : lo ≤ currentClose df := by
    rw [hcc]
    exact le_trans hlow (hcur ▸ hwf1)
  have hc2 : currentClose df ≤ hi := by
    rw [hcc]
    exact le_trans (hcur ▸ hwf2) hhigh
  have hpos : (calculatePremiumDiscount df).position =
      if hi - lo > 0 then (currentClose df - lo) / (hi - lo) else 1/2 := rfl
  constructor
  · intro hr
    rw [hpos, if_pos hr]
    refine ⟨rfl, ?_, ?_⟩
    · exact div_nonneg (sub_nonneg.mpr hc1) (le_of_lt hr)
    · rw [div_le_one hr]
      exact sub_le_sub_right hc2 lo
  · intro hr
    rw [hpos, if_neg (by rw [hr]; exact lt_irrefl 0)]

/-- Witness for **C5**: a positive-range window (position `7/10 ∈ [0,1]`)
and a flat window (position exactly `1/2`). -/
theorem claim_C5_witness :
    (calculatePremiumDiscount barsNoSweep).position = 7/10 ∧
    0 ≤ (calculatePremiumDiscount barsNoSweep).position ∧
    (calculatePremiumDiscount barsNoSweep).position ≤ 1 ∧
    (calculatePremiumDiscount barsFlat).position = 1/2 :=
  ⟨by decide,
    ((claim_C5 barsNoSweep (by decide) (by decide) (by decide)).1 (by decide)).2.1,
    ((claim_C5 barsNoSweep (by decide) (by decide) (by decide)).1 (by decide)).2.2,
    (claim_C5 barsFlat (by decide) (by decide) (by decide)).2 (by decide)⟩

/-- **C6**: whenever the bearish and the bullish MSS conditions hold
simultaneously on a bar series, `detect_market_structure_shift` returns the
bearish MSS (the bearish check runs first and returns immediately); the
`Option` return type already enforces that at most one MSS is ever reported,
and `none` is a valid non-error outcome, exhibited on the flat series. -/
theorem claim_C6 :
    (∀ (df : List Bar) (level : ℚ), bearishMssCheck df = some level →
      (bullishMssCheck df).isSome →
      detectMarketStructureShift df = some ⟨.bearishMss, level⟩) ∧
    detectMarketStructureShift barsFlat = none := by
  constructor
  · intro df level hbear _
    unfold detectMarketStructureShift
    rw [hbear]
  · rfl

/-- Witness for **C6**: on `barsBothMss` the bearish condition (higher swing
low 85 broken by close 60) and the bullish condition (lower swing high 44
exceeded by close 60) both hold, and the detector returns the bearish MSS. -/
theorem claim_C6_witness :
    bearishMssCheck barsBothMss = some 85 ∧
    (bullishMssCheck barsBothMss).isSome ∧
    detectMarketStructureShift barsBothMss = some ⟨.bearishMss, 85⟩ :=
  ⟨by decide, by decide, claim_C6.1 barsBothMss 85 (by decide) (by decide)⟩

/-- **C1**: `analyze_market` evaluates the news gate before any directional
branch: when the absolute distance to the nearest high-impact USD event is
at most 15 minutes (inclusive) it returns `NO TRADE` with a reason carrying
the event's name, for *every* bar series; when the distance exceeds 15 the
gate passes and the result is exactly that of the branch-evaluation phase
`afterNewsGate`. -/
theorem claim_C1 (scorer : Scorer) (rules : Rules) (filters : Filters)
    (dir : Direction) (instr : String) (df : List Bar) (news : List NewsEvent) :
    ((getMinutesToImpact news).1 ≤ 15 →
      analyzeMarket scorer rules filters dir instr df news =
        ⟨.noTrade,
          .highImpactNews (getMinutesToImpact news).2 (getMinutesToImpact news).1,
          .newsProx (getMinutesToImpact news).1, none, none⟩) ∧
    (15 < (getMinutesToImpact news).1 →
      analyzeMarket scorer rules filters dir instr df news =
        afterNewsGate scorer rules filters dir instr df (analyzeAll df)) := by
  constructor
  · intro h
    unfold analyzeMarket
    rw [if_pos h]
  · intro h
    unfold analyzeMarket
    rw [if_neg (not_le.mpr h)]

/-- Witness for **C1**: an event 14 minutes away (in the past) rejects with
its name regardless of the bar series; one 16 minutes away lets the
pipeline proceed to branch evaluation. -/
theorem claim_C1_witness :
    analyzeMarket (constScorer 0) rulesA filtersA .dirShort "XAU/USD"
        barsNoSweep [⟨"CPI", -14⟩] =
      ⟨.noTrade, .highImpactNews "CPI" 14, .newsProx 14, none, none⟩ ∧
    analyzeMarket (constScorer 0) rulesA filtersA .dirShort "XAU/USD"
        barsNoSweep [⟨"CPI", 16⟩] =
      afterNewsGate (constScorer 0) rulesA filtersA .dirShort "XAU/USD"
        barsNoSweep (analyzeAll barsNoSweep) :=
  ⟨((claim_C1 (constScorer 0) rulesA filtersA .dirShort "XAU/USD"
      barsNoSweep [⟨"CPI", -14⟩]).1 (by decide)).trans (by decide),
    (claim_C1 (constScorer 0) rulesA filtersA .dirShort "XAU/USD"
      barsNoSweep [⟨"CPI", 16⟩]).2 (by decide)⟩

/-- **C9, counterexample**: `can_trade` is *not* state-preserving — called
with `last_outcome_was_loss = True` on a fresh manager it increments the
consecutive-loss counter, so the claim that neither risk check changes the
risk state is false. -/
theorem claim_C9_counterexample :
    (canTrade rulesA true ⟨0, 0, 0⟩).2 ≠ ⟨0, 0, 0⟩ := by decide

/-- **C9, amended**: `validate_setup` is a pure function of its arguments
(its embedding does not touch the runtime counters at all), and `can_trade`
leaves the daily trade count and drawdown unchanged and leaves the
consecutive-loss counter unchanged when `last_outcome_was_loss` is false —
but increments it by one (before running its checks) when the flag is
true. -/
theorem claim_C9_amended (rules : Rules) (b : Bool) (s : RMState) :
    (canTrade rules b s).2 =
      ⟨s.dailyTrades, s.consecutiveLosses + (if b then 1 else 0),
        s.currentDailyDrawdown⟩ := by
  cases b <;> simp only [canTrade] <;> split_ifs <;> rfl

/-- A LONG-direction feature snapshot: bullish trend, sweep, divergence and
wick present, deep-discount position, one bullish order block, bullish
MSS. -/
def setupLongSample : SetupData :=
  { session := "Unknown"
    htfTrend := .bullish
    htfStructure := "HL"
    keyResistanceLevel := 0
    liquidityEventType := some "Local Low Sweep"
    hasLargeWick := true
    consecutiveBullishCandles := 0
    atrValue := 0
    rsiDivergence := true
    vwapDistance := 0
    volumeSpike := false
    spreadValue := 0
    newsEventProximityMinutes := 999
    premiumPosition := 1/5
    inPremiumZone := 0
    bearishObCount := 0
    bullishObCount := 1
    fvgCount := 0
    hasBearishMss := 0
    hasBullishMss := 1 }

/-- The matching structural snapshot for `setupLongSample`. -/
def smcLongSample : SmcData :=
  ⟨[], [⟨.bullish, 6, 10, 9, 4⟩], [], ⟨5, 1/5, .discount⟩, some ⟨.bullishMss, 50⟩⟩

/-- **C7, counterexample**: on a LONG setup whose trend, zone position,
order-block polarity and MSS all match the trade direction, the implemented
fallback scorer awards only the direction-independent points (25+10+10 = 45),
while the direction-relative scale the claim describes awards 110 capped at
100 — the scorer is not computed relative to the trade direction. -/
theorem claim_C7_counterexample :
    fallbackProbability setupLongSample smcLongSample = 45 ∧
    fallbackProbabilitySpec .dirLong setupLongSample smcLongSample = 100 ∧
    fallbackProbability setupLongSample smcLongSample ≠
      fallbackProbabilitySpec .dirLong setupLongSample smcLongSample := by
  refine ⟨by decide, by decide, by decide⟩

set_option maxHeartbeats 2000000 in
/-- **C7, amended**: the fallback scorer is direction-blind and always uses
the SHORT-polarity conditions: +30 only for a *Bearish* trend, +25 for a
liquidity event, +10 for divergence, +10 for a large wick, +15 only for
position > 0.7, +10 only for ≥ 1 *bearish* order block, +10 only for a
*Bearish* MSS, capped at 100 (it coincides with the claimed
direction-relative scale only for SHORT setups). -/
theorem claim_C7_amended (marketData : SetupData) (smcData : SmcData) :
    fallbackProbability marketData smcData =
      min ((if marketData.htfTrend = .bearish then (30:ℚ) else 0) +
        (if marketData.liquidityEventType.isSome then 25 else 0) +
        (if marketData.rsiDivergence then 10 else 0) +
        (if marketData.hasLargeWick then 10 else 0) +
        (if smcData.premiumDiscount.position > 7/10 then 15 else 0) +
        (if smcData.orderBlocksBearish.length > 0 then 10 else 0) +
        (if hasMssType smcData.marketStructureShift .bearishMss then 10 else 0))
        100 := by
  unfold fallbackProbability
  split_ifs <;> simp only [zero_add, add_zero]

theorem recentHighBeforeLast_eq (df : List Bar) :
    recentHighBeforeLast df =
      ListQ.max? (((takeLast 10 df).dropLast).map (·.high)) := rfl

theorem recentLowBeforeLast_eq (df : List Bar) :
    recentLowBeforeLast df =
      ListQ.min? (((takeLast 10 df).dropLast).map (·.low)) := rfl

/-- The two possible outcomes of `_finalize_setup`, abstracted over the
assembled snapshot `sd` and the validator verdict `v`: a risk rejection
carrying the snapshot, or the `VALID SETUP` result; in both, the snapshot's
`news_event_proximity_minutes` is the constant 999 and the validator was
called with `spread = 0.1`. -/
theorem finalizeSetup_shape (scorer : Scorer) (rules : Rules)
    (filters : Filters) (entry sl tp1 rr : ℚ) (direction : Direction)
    (trend : Trend) (liqEvent : Option String) (exhaust rsiDiv : Bool)
    (candle : Bar) (smcData : SmcData) :
    ∃ (sd : SetupData) (v : Bool × RiskReason),
      sd.newsEventProximityMinutes = 999 ∧
      v = validateSetup rules filters rr (1/10) (scorer sd smcData) ∧
      finalizeSetup scorer rules filters entry sl tp1 rr direction trend
          liqEvent exhaust rsiDiv candle smcData =
        if v.1 = false then
          ⟨.noTrade, .riskReject v.2, .snapshot sd, none, none⟩
        else
          ⟨.validSetup, .allChecksPassed, .snapshot sd,
            some ⟨direction, entry,
              (if direction = .dirShort then entry + 1 else entry - 1),
              sl, tp1, 0, rr, scorer sd smcData⟩, some smcData⟩ := by
  unfold finalizeSetup
  exact ⟨_, _, rfl, rfl, rfl⟩

/-- Every result of `_finalize_setup` is either a risk rejection or the
`VALID SETUP` verdict. -/
theorem finalizeSetup_reason_cases (scorer : Scorer) (rules : Rules)
    (filters : Filters) (entry sl tp1 rr : ℚ) (direction : Direction)
    (trend : Trend) (liqEvent : Option String) (exhaust rsiDiv : Bool)
    (candle : Bar) (smcData : SmcData) :
    (∃ r, (finalizeSetup scorer rules filters entry sl tp1 rr direction trend
        liqEvent exhaust rsiDiv candle smcData).reason = .riskReject r) ∨
      (finalizeSetup scorer rules filters entry sl tp1 rr direction trend
        liqEvent exhaust rsiDiv candle smcData).reason = .allChecksPassed := by
  rcases finalizeSetup_shape scorer rules filters entry sl tp1 rr direction
      trend liqEvent exhaust rsiDiv candle smcData with ⟨sd, v, _, _, heq⟩
  rw [heq]
  split
  · exact Or.inl ⟨v.2, rfl⟩
  · exact Or.inr rfl

/-- **C2**: in each directional branch, once the zone and opposing-MSS gates
have passed, the branch returns the liquidity-sweep `NO TRADE` rejection if
and only if the current bar's high does **not** exceed the maximum high
(resp. its low is not below the minimum low) of the bars of the 10-bar
lookback window excluding the current one — under `10 ≤ df.length` these
are exactly the prior bars at positions `N-10 … N-2`.  In particular,
absence of a sweep makes the branch return `NO TRADE` immediately. -/
theorem claim_C2 (scorer : Scorer) (rules : Rules) (filters : Filters)
    (df : List Bar) (smcData : SmcData) (trend : Trend)
    (currentCandle prevCandle : Bar) (h10 : 10 ≤ df.length) :
    ((smcData.premiumDiscount.zone = .premium ∨
        smcData.premiumDiscount.zone = .premiumWeak ∨
        smcData.premiumDiscount.zone = .equilibrium) →
      hasMssType smcData.marketStructureShift .bullishMss = false →
      (analyzeShortSetup scorer rules filters df smcData trend currentCandle
          prevCandle =
        ⟨.noTrade, .noLiquiditySweepHighs, .empty, none, none⟩ ↔
      ¬ ∃ m, ListQ.max? (((takeLast 10 df).dropLast).map (·.high)) = some m ∧
        currentCandle.high > m)) ∧
    ((smcData.premiumDiscount.zone = .discount ∨
        smcData.premiumDiscount.zone = .equilibrium) →
      hasMssType smcData.marketStructureShift .bearishMss = false →
      (analyzeLongSetup scorer rules filters df smcData trend currentCandle
          prevCandle =
        ⟨.noTrade, .noLiquiditySweepLows, .empty, none, none⟩ ↔
      ¬ ∃ m, ListQ.min? (((takeLast 10 df).dropLast).map (·.low)) = some m ∧
        currentCandle.low < m)) := by
  constructor
  · intro hzone hmss
    unfold analyzeShortSetup
    rw [if_neg (not_not_intro hzone), hmss]
    simp only [Bool.false_eq_true, if_false]
    rcases hcase : shortLiquidityEvent df currentCandle with _ | s
    · refine iff_of_true (by simp [hcase]) ?_
      rintro ⟨m, hm, hgt⟩
      rw [← recentHighBeforeLast_eq] at hm
      unfold shortLiquidityEvent at hcase
      rw [hm] at hcase
      simp [hgt] at hcase
    · refine iff_of_false ?_ ?_
      · intro heq
        simp only [hcase, Option.isNone_some, Bool.false_eq_true, if_false] at heq
        split at heq
        · cases heq
        · have hre := congrArg AnalysisResult.reason heq
          rcases finalizeSetup_reason_cases scorer rules filters _ _ _ _ _ _ _ _ _
              currentCandle smcData with ⟨r, hr⟩ | hr <;>
            rw [hr] at hre <;> cases hre
      · intro hnone
        unfold shortLiquidityEvent at hcase
        rw [recentHighBeforeLast_eq] at hcase
        rcases hr : ListQ.max? (((takeLast 10 df).dropLast).map (·.high)) with _ | m
        · rw [hr] at hcase
          simp at hcase
        · rw [hr] at hcase
          by_cases hgt : currentCandle.high > m
          · exact hnone ⟨m, hr, hgt⟩
          · simp [hgt] at hcase
  · intro hzone hmss
    unfold analyzeLongSetup
    rw [if_neg (not_not_intro hzone), hmss]
    simp only [Bool.false_eq_true, if_false]
    rcases hcase : longLiquidityEvent df currentCandle with _ | s
    · refine iff_of_true (by simp [hcase]) ?_
      rintro ⟨m, hm, hgt⟩
      rw [← recentLowBeforeLast_eq] at hm
      unfold longLiquidityEvent at hcase
      rw [hm] at hcase
      simp [hgt] at hcase
    · refine iff_of_false ?_ ?_
      · intro heq
        simp only [hcase, Option.isNone_some, Bool.false_eq_true, if_false] at heq
        split at heq
        · cases heq
        · have hre := congrArg AnalysisResult.reason heq
          rcases finalizeSetup_reason_cases scorer rules filters _ _ _ _ _ _ _ _ _
              currentCandle smcData with ⟨r, hr⟩ | hr <;>
            rw [hr] at hre <;> cases hre
      · intro hnone
        unfold longLiquidityEvent at hcase
        rw [recentLowBeforeLast_eq] at hcase
        rcases hr : ListQ.min? (((takeLast 10 df).dropLast).map (·.low)) with _ | m
        · rw [hr] at hcase
          simp at hcase
        · rw [hr] at hcase
          by_cases hgt : currentCandle.low < m
          · exact hnone ⟨m, hr, hgt⟩
          · simp [hgt] at hcase

/-- A premium-zone structural snapshot with no MSS. -/
def smcPremiumSample : SmcData := ⟨[], [], [], ⟨7, 7/10, .premium⟩, none⟩

/-- A discount-zone structural snapshot with no MSS. -/
def smcDiscountSample : SmcData := ⟨[], [], [], ⟨3, 3/10, .discount⟩, none⟩

/-- Witness for **C2**: on ten identical candles neither branch sees a sweep
(the current high equals, does not exceed, the prior max) and each branch
returns its liquidity-sweep rejection. -/
theorem claim_C2_witness :
    analyzeShortSetup (constScorer 0) rulesA filtersA barsNoSweep
        smcPremiumSample .ranging (mkBar 6 10 0 7) (mkBar 6 10 0 7) =
      ⟨.noTrade, .noLiquiditySweepHighs, .empty, none, none⟩ ∧
    analyzeLongSetup (constScorer 0) rulesA filtersA barsNoSweep
        smcDiscountSample .ranging (mkBar 6 10 0 7) (mkBar 6 10 0 7) =
      ⟨.noTrade, .noLiquiditySweepLows, .empty, none, none⟩ := by
  constructor
  · refine ((claim_C2 (constScorer 0) rulesA filtersA barsNoSweep
      smcPremiumSample .ranging (mkBar 6 10 0 7) (mkBar 6 10 0 7)
      (by decide)).1 (by decide) (by decide)).mpr ?_
    rintro ⟨m, hm, hgt⟩
    rw [show ListQ.max? (((takeLast 10 barsNoSweep).dropLast).map (·.high)) =
      some 10 from by decide] at hm
    obtain rfl : (10:ℚ) = m := by injection hm
    exact absurd hgt (by decide)
  · refine ((claim_C2 (constScorer 0) rulesA filtersA barsNoSweep
      smcDiscountSample .ranging (mkBar 6 10 0 7) (mkBar 6 10 0 7)
      (by decide)).2 (by decide) (by decide)).mpr ?_
    rintro ⟨m, hm, hgt⟩
    rw [show ListQ.min? (((takeLast 10 barsNoSweep).dropLast).map (·.low)) =
      some 0 from by decide] at hm
    obtain rfl : (0:ℚ) = m := by injection hm
    exact absurd hgt (by decide)

/-- The spread payload of a spread rejection is exactly the spread argument
and the configured maximum. -/
theorem validateSetup_spread (rules : Rules) (filters : Filters)
    (rrRatio spread probScore sp mx : ℚ)
    (h : (validateSetup rules filters rrRatio spread probScore).2 =
      .spreadTooHigh sp mx) : sp = spread ∧ mx = filters.maxSpreadPips := by
  unfold validateSetup at h
  split_ifs at h <;> simp at h
  exact ⟨h.1.symm, h.2.symm⟩

/-- Any snapshot emitted by `_finalize_setup` has
`news_event_proximity_minutes = 999`. -/
theorem finalizeSetup_data_999 (scorer : Scorer) (rules : Rules)
    (filters : Filters) (entry sl tp1 rr : ℚ) (direction : Direction)
    (trend : Trend) (liqEvent : Option String) (exhaust rsiDiv : Bool)
    (candle : Bar) (smcData : SmcData) (d : SetupData)
    (h : (finalizeSetup scorer rules filters entry sl tp1 rr direction trend
        liqEvent exhaust rsiDiv candle smcData).data = .snapshot d) :
    d.newsEventProximityMinutes = 999 := by
  rcases finalizeSetup_shape scorer rules filters entry sl tp1 rr direction
      trend liqEvent exhaust rsiDiv candle smcData with ⟨sd, v, h999, _, heq⟩
  rw [heq] at h
  split at h <;> · injection h with h'; rw [← h']; exact h999

/-- Any spread rejection emitted by `_finalize_setup` carries spread `0.1`
and the configured maximum. -/
theorem finalizeSetup_spread (scorer : Scorer) (rules : Rules)
    (filters : Filters) (entry sl tp1 rr : ℚ) (direction : Direction)
    (trend : Trend) (liqEvent : Option String) (exhaust rsiDiv : Bool)
    (candle : Bar) (smcData : SmcData) (sp mx : ℚ)
    (h : (finalizeSetup scorer rules filters entry sl tp1 rr direction trend
        liqEvent exhaust rsiDiv candle smcData).reason =
      .riskReject (.spreadTooHigh sp mx)) :
    sp = 1/10 ∧ mx = filters.maxSpreadPips := by
  rcases finalizeSetup_shape scorer rules filters entry sl tp1 rr direction
      trend liqEvent exhaust rsiDiv candle smcData with ⟨sd, v, _, hv, heq⟩
  rw [heq] at h
  split at h
  · simp only [Reason.riskReject.injEq] at h
    exact validateSetup_spread rules filters rr (1/10)
      (scorer sd smcData) sp mx (by rw [← hv]; exact h)
  · simp at h

/-- Any snapshot emitted by the short branch has the constant 999 news
proximity (its rejection dictionaries carry no snapshot at all). -/
theorem analyzeShortSetup_data_999 (scorer : Scorer) (rules : Rules)
    (filters : Filters) (df : List Bar) (smcData : SmcData) (trend : Trend)
    (currentCandle prevCandle : Bar) (d : SetupData)
    (h : (analyzeShortSetup scorer rules filters df smcData trend
        currentCandle prevCandle).data = .snapshot d) :
    d.newsEventProximityMinutes = 999 := by
  simp only [analyzeShortSetup] at h
  split at h
  · cases h
  · split at h
    · cases h
    · split at h
      · cases h
      · split at h
        · cases h
        · exact finalizeSetup_data_999 _ _ _ _ _ _ _ _ _ _ _ _ _ _ _ h

/-- Any snapshot emitted by the long branch has the constant 999 news
proximity. -/
theorem analyzeLongSetup_data_999 (scorer : Scorer) (rules : Rules)
    (filters : Filters) (df : List Bar) (smcData : SmcData) (trend : Trend)
    (currentCandle prevCandle : Bar) (d : SetupData)
    (h : (analyzeLongSetup scorer rules filters df smcData trend
        currentCandle prevCandle).data = .snapshot d) :
    d.newsEventProximityMinutes = 999 := by
  simp only [analyzeLongSetup] at h
  split at h
  · cases h
  · split at h
    · cases h
    · split at h
      · cases h
      · split at h
        · cases h
        · exact finalizeSetup_data_999 _ _ _ _ _ _ _ _ _ _ _ _ _ _ _ h

/-- Any snapshot surfacing from the branch-evaluation phase has the
constant 999 news proximity. -/
theorem afterNewsGate_data_999 (scorer : Scorer) (rules : Rules)
    (filters : Filters) (dir : Direction) (instr : String) (df : List Bar)
    (smcData : SmcData) (d : SetupData)
    (h : (afterNewsGate scorer rules filters dir instr df smcData).data =
      .snapshot d) :
    d.newsEventProximityMinutes = 999 := by
  simp only [afterNewsGate] at h
  repeat' split at h
  all_goals
    first
      | cases h
      | exact analyzeShortSetup_data_999 _ _ _ _ _ _ _ _ _ h
      | exact analyzeLongSetup_data_999 _ _ _ _ _ _ _ _ _ h

/-- **C10**: on every path of the pipeline that reaches setup finalization,
the snapshot field `news_event_proximity_minutes` is the hardcoded constant
999, independent of the bar series and the news calendar (first conjunct:
every snapshot the pipeline ever emits carries 999); and the spread handed
to the risk validator is the hardcoded constant `0.1`, so a spread rejection
always compares `0.1` — never measured market data — against the configured
maximum (second conjunct, at the finalization stage whose rejections the
top-level pipeline later swallows). -/
theorem claim_C10 :
    (∀ (scorer : Scorer) (rules : Rules) (filters : Filters) (dir : Direction)
      (instr : String) (df : List Bar) (news : List NewsEvent) (d : SetupData),
      (analyzeMarket scorer rules filters dir instr df news).data =
        .snapshot d →
      d.newsEventProximityMinutes = 999) ∧
    (∀ (scorer : Scorer) (rules : Rules) (filters : Filters)
      (entry sl tp1 rr : ℚ) (direction : Direction) (trend : Trend)
      (liqEvent : Option String) (exhaust rsiDiv : Bool) (candle : Bar)
      (smcData : SmcData) (sp mx : ℚ),
      (finalizeSetup scorer rules filters entry sl tp1 rr direction trend
          liqEvent exhaust rsiDiv candle smcData).reason =
        .riskReject (.spreadTooHigh sp mx) →
      sp = 1/10 ∧ mx = filters.maxSpreadPips) := by
  constructor
  · intro scorer rules filters dir instr df news d h
    simp only [analyzeMarket] at h
    split at h
    · cases h
    · exact afterNewsGate_data_999 _ _ _ _ _ _ _ _ h
  · intro scorer rules filters entry sl tp1 rr direction trend liqEvent
      exhaust rsiDiv candle smcData sp mx h
    exact finalizeSetup_spread _ _ _ _ _ _ _ _ _ _ _ _ _ _ _ _ h

/-- The snapshot produced by the `barsSweep` SHORT run. -/
def snapSweep : SetupData :=
  { session := "Unknown"
    htfTrend := .ranging
    htfStructure := "LH"
    keyResistanceLevel := 0
    liquidityEventType := some "Local High Sweep"
    hasLargeWick := true
    consecutiveBullishCandles := 0
    atrValue := 0
    rsiDivergence := false
    vwapDistance := 7
    volumeSpike := false
    spreadValue := 0
    newsEventProximityMinutes := 999
    premiumPosition := 7/12
    inPremiumZone := 1
    bearishObCount := 0
    bullishObCount := 0
    fvgCount := 0
    hasBearishMss := 0
    hasBullishMss := 0 }

set_option maxRecDepth 4000 in
/-- Witness for **C10**: the `barsSweep` run reaches finalization and emits
a snapshot, whose news proximity is 999; and with a configured max spread of
`0.05` the finalization stage rejects with a spread payload of exactly
`(0.1, 0.05)`. -/
theorem claim_C10_witness :
    (analyzeMarket (constScorer 80) rulesA filtersA .dirShort "XAU/USD"
        barsSweep []).data = .snapshot snapSweep ∧
    snapSweep.newsEventProximityMinutes = 999 ∧
    (finalizeSetup (constScorer 80) rulesA filtersB 7 (66/5) (-27/5) 2
        .dirShort .ranging (some "Local High Sweep") true false
        (mkBar 8 12 0 7) (analyzeAll barsSweep)).reason =
      .riskReject (.spreadTooHigh (1/10) (1/20)) ∧
    (1/10 : ℚ) = 1/10 ∧ (1/20 : ℚ) = filtersB.maxSpreadPips := by
  have hdata : (analyzeMarket (constScorer 80) rulesA filtersA .dirShort
      "XAU/USD" barsSweep []).data = .snapshot snapSweep := by decide
  have hspread : (finalizeSetup (constScorer 80) rulesA filtersB 7 (66/5)
      (-27/5) 2 .dirShort .ranging (some "Local High Sweep") true false
      (mkBar 8 12 0 7) (analyzeAll barsSweep)).reason =
      .riskReject (.spreadTooHigh (1/10) (1/20)) := by decide
  exact ⟨hdata, claim_C10.1 _ _ _ _ _ _ _ _ hdata, hspread,
    claim_C10.2 _ _ _ _ _ _ _ _ _ _ _ _ _ _ _ _ hspread⟩

set_option maxRecDepth 4000 in
/-- **C8, counterexample**: the run on `barsNoSweep` is rejected at the
liquidity-sweep gate, yet the pipeline's `NO TRADE` result carries no SMC
snapshot at all (`smc = none`, `data` holds only the instrument name): a
`NO TRADE` result does not carry the partial structural snapshot. -/
theorem claim_C8_counterexample :
    (analyzeMarket (constScorer 0) rulesA filtersA .dirShort "XAU/USD"
        barsNoSweep []).verdict = .noTrade ∧
    (analyzeMarket (constScorer 0) rulesA filtersA .dirShort "XAU/USD"
        barsNoSweep []).smc = none ∧
    (analyzeMarket (constScorer 0) rulesA filtersA .dirShort "XAU/USD"
        barsNoSweep []).data = .instrumentOnly "XAU/USD" := by
  refine ⟨by decide, by decide, by decide⟩

/-- Branch-phase results that reject carry no SMC snapshot once they pass
through `analyze_market`, which swallows non-valid branch results. -/
theorem afterNewsGate_noTrade_smc (scorer : Scorer) (rules : Rules)
    (filters : Filters) (dir : Direction) (instr : String) (df : List Bar)
    (smcData : SmcData) :
    (afterNewsGate scorer rules filters dir instr df smcData).verdict =
      .noTrade →
    (afterNewsGate scorer rules filters dir instr df smcData).smc = none := by
  simp only [afterNewsGate]
  repeat' split
  all_goals intro hnt
  all_goals first | rfl | simp_all

/-- **C8, amended**: every result of the pipeline carries a reason (the
`reason` field is total), but the SMC snapshot is *not* attached to
`NO TRADE` results: `analyze_market` swallows rejected branch results, so a
pipeline-level `NO TRADE` never carries the snapshot (first conjunct).
Inside a branch, the zone-membership and opposing-MSS rejections do attach
the snapshot, while the liquidity-sweep and confirmation rejections — like
the news-gate rejection, covered by the first conjunct — do not
(remaining conjuncts, for the short branch). -/
theorem claim_C8_amended :
    (∀ (scorer : Scorer) (rules : Rules) (filters : Filters) (dir : Direction)
      (instr : String) (df : List Bar) (news : List NewsEvent),
      (analyzeMarket scorer rules filters dir instr df news).verdict =
        .noTrade →
      (analyzeMarket scorer rules filters dir instr df news).smc = none) ∧
    (∀ (scorer : Scorer) (rules : Rules) (filters : Filters) (df : List Bar)
      (smcData : SmcData) (trend : Trend) (cur prev : Bar),
      (¬ (smcData.premiumDiscount.zone = .premium ∨
          smcData.premiumDiscount.zone = .premiumWeak ∨
          smcData.premiumDiscount.zone = .equilibrium) →
        analyzeShortSetup scorer rules filters df smcData trend cur prev =
          ⟨.noTrade, .notInPremiumZone smcData.premiumDiscount.zone, .empty,
            none, some smcData⟩) ∧
      ((smcData.premiumDiscount.zone = .premium ∨
          smcData.premiumDiscount.zone = .premiumWeak ∨
          smcData.premiumDiscount.zone = .equilibrium) →
        hasMssType smcData.marketStructureShift .bullishMss = true →
        analyzeShortSetup scorer rules filters df smcData trend cur prev =
          ⟨.noTrade, .bullishMssDetected, .empty, none, some smcData⟩) ∧
      ((smcData.premiumDiscount.zone = .premium ∨
          smcData.premiumDiscount.zone = .premiumWeak ∨
          smcData.premiumDiscount.zone = .equilibrium) →
        hasMssType smcData.marketStructureShift .bullishMss = false →
        shortLiquidityEvent df cur = none →
        analyzeShortSetup scorer rules filters df smcData trend cur prev =
          ⟨.noTrade, .noLiquiditySweepHighs, .empty, none, none⟩) ∧
      ((smcData.premiumDiscount.zone = .premium ∨
          smcData.premiumDiscount.zone = .premiumWeak ∨
          smcData.premiumDiscount.zone = .equilibrium) →
        hasMssType smcData.marketStructureShift .bullishMss = false →
        ∀ s, shortLiquidityEvent df cur = some s →
        ¬ (cur.high > prev.high ∧ cur.rsi < prev.rsi) →
        ¬ (cur.high - max cur.close cur.op ≥ |cur.close - cur.op| * 1) →
        analyzeShortSetup scorer rules filters df smcData trend cur prev =
          ⟨.noTrade, .noConfirmation, .empty, none, none⟩)) := by
  constructor
  · intro scorer rules filters dir instr df news
    simp only [analyzeMarket]
    split
    · intro _
      rfl
    · exact afterNewsGate_noTrade_smc scorer rules filters dir instr df
        (analyzeAll df)
  · intro scorer rules filters df smcData trend cur prev
    refine ⟨?_, ?_, ?_, ?_⟩
    · intro hzone
      unfold analyzeShortSetup
      rw [if_pos hzone]
    · intro hzone hmss
      unfold analyzeShortSetup
      rw [if_neg (not_not_intro hzone), hmss, if_pos rfl]
    · intro hzone hmss hno
      unfold analyzeShortSetup
      rw [if_neg (not_not_intro hzone), hmss]
      simp only [Bool.false_eq_true, if_false, hno, Option.isNone_none, if_true]
    · intro hzone hmss s hsome hdiv hexh
      unfold analyzeShortSetup
      rw [if_neg (not_not_intro hzone), hmss]
      simp only [Bool.false_eq_true, if_false, hsome, Option.isNone_some]
      rw [if_pos ⟨hdiv, hexh⟩]

/-- A premium-zone structural snapshot carrying a bullish MSS. -/
def smcPremiumBullMss : SmcData :=
  ⟨[], [], [], ⟨7, 7/10, .premium⟩, some ⟨.bullishMss, 5⟩⟩

set_option maxRecDepth 4000 in
/-- Witness for **C8 (amended)**: concrete rejections at each gate — the
pipeline-level `NO TRADE` carries no snapshot; the zone and opposing-MSS
branch rejections carry it; the sweep and confirmation branch rejections do
not. -/
theorem claim_C8_amended_witness :
    (analyzeMarket (constScorer 0) rulesA filtersA .dirShort "XAU/USD"
        barsNoSweep []).smc = none ∧
    analyzeShortSetup (constScorer 0) rulesA filtersA barsNoSweep
        smcDiscountSample .ranging (mkBar 6 10 0 7) (mkBar 6 10 0 7) =
      ⟨.noTrade, .notInPremiumZone smcDiscountSample.premiumDiscount.zone,
        .empty, none, some smcDiscountSample⟩ ∧
    analyzeShortSetup (constScorer 0) rulesA filtersA barsNoSweep
        smcPremiumBullMss .ranging (mkBar 6 10 0 7) (mkBar 6 10 0 7) =
      ⟨.noTrade, .bullishMssDetected, .empty, none, some smcPremiumBullMss⟩ ∧
    analyzeShortSetup (constScorer 0) rulesA filtersA barsNoSweep
        smcPremiumSample .ranging (mkBar 6 10 0 7) (mkBar 6 10 0 7) =
      ⟨.noTrade, .noLiquiditySweepHighs, .empty, none, none⟩ ∧
    analyzeShortSetup (constScorer 0) rulesA filtersA barsNoSweep
        smcPremiumSample .ranging (mkBar 0 12 0 11) (mkBar 6 10 0 7) =
      ⟨.noTrade, .noConfirmation, .empty, none, none⟩ :=
  ⟨claim_C8_amended.1 (constScorer 0) rulesA filtersA .dirShort "XAU/USD"
      barsNoSweep [] (by decide),
    (claim_C8_amended.2 (constScorer 0) rulesA filtersA barsNoSweep
      smcDiscountSample .ranging (mkBar 6 10 0 7) (mkBar 6 10 0 7)).1
      (by decide),
    (claim_C8_amended.2 (constScorer 0) rulesA filtersA barsNoSweep
      smcPremiumBullMss .ranging (mkBar 6 10 0 7) (mkBar 6 10 0 7)).2.1
      (by decide) (by decide),
    (claim_C8_amended.2 (constScorer 0) rulesA filtersA barsNoSweep
      smcPremiumSample .ranging (mkBar 6 10 0 7) (mkBar 6 10 0 7)).2.2.1
      (by decide) (by decide) (by decide),
    (claim_C8_amended.2 (constScorer 0) rulesA filtersA barsNoSweep
      smcPremiumSample .ranging (mkBar 0 12 0 11) (mkBar 6 10 0 7)).2.2.2
      (by decide) (by decide) "Local High Sweep" (by decide) (by decide)
      (by decide)⟩
